import Mathlib

/-!
Shallow embedding of the RoSeal HTTPClient (src/src/constants.ts,
src/src/utils.ts, src/src/classes/RESTError.ts) for checking its
natural-language specification.

Modelling conventions:
* JavaScript strings are `String`; `undefined`/absent optional fields are
  `Option.none`; JS string truthiness (`""` is falsy) is `jsTruthyOS`.
* JS numbers used as retry budgets are `Int`; JS numbers that may be `NaN`
  (the rate-limit fields produced by `Number.parseInt`) are `Option Int`
  with `Option.none` playing the role of `NaN`.
* `Headers` and `URLSearchParams` are association lists of strings; header
  names are assumed already lower-case (all names the client uses are
  lower-case constants).
* Asynchronous values (`MaybePromise`) are collapsed to their resolved
  values; the injected transport is modelled by the list of transport
  responses the successive dispatches of the retry loop would receive.
* External collaborators (the BEDEV1/BEDEV2 error parsers, the challenge
  header parser, `JSON.parse`, `DOMParser`, the WHATWG URL parser,
  the configured `camelizeObject`) are parameters of the model, gathered
  in small environment structures.
-/

/-- `needle` occurs as a contiguous run inside `hay`. -/
def listInfix (needle : List Char) : List Char → Bool
  | [] => needle.isEmpty
  | c :: rest => needle.isPrefixOf (c :: rest) || listInfix needle rest

/-- JS `s.includes(sub)`. -/
def jsIncludes (s sub : String) : Bool :=
  listInfix sub.toList s.toList

/-- JS truthiness of a `string | undefined` value: `undefined` and `""` are falsy. -/
def jsTruthyOS : Option String → Bool
  | Option.none => false
  | Option.some s => s != ""

/-- JS `s.startsWith(p)` (kernel-reducible form of `String.startsWith`). -/
def jsStartsWith (s p : String) : Bool :=
  p.toList.isPrefixOf s.toList

/-- JS `s.trim()` (kernel-reducible form of `String.trim`). -/
def jsTrim (s : String) : String :=
  String.mk
    (((s.toList.dropWhile (fun c => c.isWhitespace)).reverse.dropWhile
        (fun c => c.isWhitespace)).reverse)

/-- `url.replace(REMOVE_PROTOCOL_REGEX, "")` with `REMOVE_PROTOCOL_REGEX = /^https?:\/\//`. -/
def stripProtocol (s : String) : String :=
  if jsStartsWith s "https://" then String.mk (s.toList.drop 8)
  else if jsStartsWith s "http://" then String.mk (s.toList.drop 7)
  else s

/-- Value of a decimal digit run (used by the `Number.parseInt` model). -/
def natOfDigits (cs : List Char) : Nat :=
  cs.foldl (fun acc c => acc * 10 + (c.toNat - 48)) 0

/-- Leading digit run of `Number.parseInt`; `Option.none` when there is no digit (`NaN`). -/
def jsParseIntCore (cs : List Char) : Option Nat :=
  let ds := cs.takeWhile (fun c => c.isDigit)
  if ds.isEmpty then Option.none else Option.some (natOfDigits ds)

/-- `Number.parseInt(s, 10)`: skip whitespace, optional sign, parse the leading
digit run, ignore the rest; `Option.none` models `NaN`. -/
def jsParseInt (s : String) : Option Int :=
  match s.toList.dropWhile (fun c => c.isWhitespace) with
  | [] => Option.none
  | c :: rest =>
    if c = '-' then (jsParseIntCore rest).map (fun n => -(n : Int))
    else if c = '+' then (jsParseIntCore rest).map (fun n => (n : Int))
    else (jsParseIntCore (c :: rest)).map (fun n => (n : Int))

/-- `Number.parseInt(headers.get(name), 10)`: a missing header (`null`) coerces to
the string "null", which parses to `NaN`. -/
def jsParseIntOpt : Option String → Option Int
  | Option.none => Option.none
  | Option.some s => jsParseInt s

/-! ## Header collections (JS `Headers`) -/

/-- A JS `Headers` object (header names assumed lower-case). -/
abbrev HeadersL := List (String × String)

/-- `headers.get(k)` (`Option.none` models `null`). -/
def hget (h : HeadersL) (k : String) : Option String :=
  (h.find? (fun p => p.1 = k)).map (fun p => p.2)

/-- `headers.has(k)`. -/
def hhas (h : HeadersL) (k : String) : Bool :=
  (hget h k).isSome

/-- `headers.set(k, v)`: replace the value of an existing name, else append. -/
def hset : HeadersL → String → String → HeadersL
  | [], k, v => [(k, v)]
  | kv :: rest, k, v =>
    if kv.1 = k then (k, v) :: rest else kv :: hset rest k v

/-! ## URLSearchParams -/

/-- `URLSearchParams.set(k, v)`: replace the first entry named `k` (dropping any
later duplicates), else append. -/
def spSet : List (String × String) → String → String → List (String × String)
  | [], k, v => [(k, v)]
  | kv :: rest, k, v =>
    if kv.1 = k then (k, v) :: rest.filter (fun p => p.1 ≠ k)
    else kv :: spSet rest k v

/-! ## Constants (src/src/constants.ts; the challenge header names come from the
external parse-roblox-errors package) -/

def DEFAULT_ACCOUNT_TOKEN : String := "default"

def CSRF_TOKEN_HEADER_NAME : String := "x-csrf-token"

def USER_AGENT_HEADER_NAME : String := "user-agent"

def RATELIMIT_LIMIT_HEADER : String := "x-ratelimit-limit"

def RATELIMIT_REMAINING_HEADER : String := "x-ratelimit-remaining"

def RATELIMIT_RESET_HEADER : String := "x-ratelimit-reset"

def RETRY_ERROR_CODES : List Nat := [500, 502, 503, 504]

def GENERIC_CHALLENGE_TYPE_HEADER : String := "rblx-challenge-type"

def GENERIC_CHALLENGE_ID_HEADER : String := "rblx-challenge-id"

def GENERIC_CHALLENGE_METADATA_HEADER : String := "rblx-challenge-metadata"

/-! ## CSRF token store (`HTTPClient.csrfTokens`, `getCsrfToken`, `setCsrfToken`) -/

/-- `csrfTokens`: per-account record plus the anonymous `ip` slot.  A stored
`Option.some ""` models a stored empty string, `Option.none` a missing /
`undefined` entry. -/
structure CsrfTokens where
  accounts : List (String × Option String)
  ip : Option String
  deriving DecidableEq, Repr

/-- JS object read `accounts[a]` (`Option.none` when the key is absent). -/
def lookupAccount (st : CsrfTokens) (a : String) : Option String :=
  match st.accounts.find? (fun kv => kv.1 = a) with
  | Option.some kv => kv.2
  | Option.none => Option.none

/-- JS object write `accounts[a] = v`. -/
def assocSet : List (String × Option String) → String → Option String → List (String × Option String)
  | [], k, v => [(k, v)]
  | kv :: rest, k, v =>
    if kv.1 = k then (k, v) :: rest else kv :: assocSet rest k v

/-- Client options used by the modelled operations
(`HTTPClientConstructorOptions`). -/
structure HTTPClientOptions where
  domainsMain : String
  domainsCdn : String
  onWebsite : Bool
  accountTokenSearchParam : Option String
  overrideDeviceTypeHeaderName : Option String
  trackingSearchParam : Option String
  isDev : Bool
  deriving Repr

/-- `HTTPClient.getCsrfToken(authorized = false, accountToken = DEFAULT_ACCOUNT_TOKEN)`.
`domToken` is the `data-token` attribute of the page's CSRF meta tag
(`Option.none` when the document / element / attribute is missing); the code's
`|| undefined` turns an empty attribute into `undefined`. -/
def getCsrfToken (opts : HTTPClientOptions) (st : CsrfTokens) (domToken : Option String)
    (authorized : Bool) (accountToken : String) : Option String :=
  let token := if authorized then lookupAccount st accountToken else st.ip
  if accountToken = DEFAULT_ACCOUNT_TOKEN ∧ authorized = true ∧
      jsTruthyOS token = false ∧ opts.onWebsite = true then
    match domToken with
    | Option.some s => if s = "" then Option.none else Option.some s
    | Option.none => Option.none
  else token

/-- `HTTPClient.setCsrfToken(value, authorized?, accountToken = DEFAULT_ACCOUNT_TOKEN)`. -/
def setCsrfToken (st : CsrfTokens) (value : Option String) (authorized : Bool)
    (accountToken : String) : CsrfTokens :=
  { accounts := if authorized then assocSet st.accounts accountToken value else st.accounts,
    ip := value }

/-! ## Rate-limit parser (`HTTPClient.parseRatelimitHeaders`) -/

/-- `Ratelimit`: `_limit` is kept verbatim as a string; `remaining`/`reset` are
JS numbers that may be `NaN` (`Option.none`). -/
structure Ratelimit where
  _limit : String
  remaining : Option Int
  reset : Option Int
  deriving DecidableEq, Repr

/-- `HTTPClient.parseRatelimitHeaders(headers)`. -/
def parseRatelimitHeaders (headers : HeadersL) : Option Ratelimit :=
  if hhas headers RATELIMIT_LIMIT_HEADER = false then Option.none
  else
    Option.some
      { _limit := (hget headers RATELIMIT_LIMIT_HEADER).getD "",
        remaining := jsParseIntOpt (hget headers RATELIMIT_REMAINING_HEADER),
        reset := jsParseIntOpt (hget headers RATELIMIT_RESET_HEADER) }

/-! ## Request descriptors (`HTTPRequest` / `InternalHTTPRequest`) -/

/-- A parsed challenge record (external parse-roblox-errors type). -/
structure ParsedChallenge where
  challengeType : String
  challengeId : String
  challengeBase64Metadata : String
  deriving DecidableEq, Repr

/-- A `search` field: either a caller-supplied `URLSearchParams` or a plain
record whose values may be `null`/`undefined` (`Option.none`). -/
inductive SearchV
  | sp (l : List (String × String))
  | obj (m : List (String × Option String))
  deriving DecidableEq, Repr

/-- A `headers` field: either a pre-built `Headers` or a plain record. -/
inductive HeadersV
  | hdrs (h : HeadersL)
  | obj (m : List (String × Option String))
  deriving DecidableEq, Repr

/-- The request descriptor (the fields consumed by the modelled operations;
`expect`, `method` and `errorHandling` keep their source string values). -/
structure HTTPReq where
  method : Option String
  url : String
  search : Option SearchV
  headers : Option HeadersV
  expect : Option String
  includeCredentials : Option Bool
  camelizeResponse : Option Bool
  accountToken : Option String
  overrideDeviceType : Option String
  includeCsrf : Option Bool
  retries : Option Int
  errorHandling : Option String
  handleChallenge : Option (ParsedChallenge → Option ParsedChallenge)

/-- `filterObject` (src/src/utils.ts): drop `null`/`undefined` entries. -/
def filterObject (m : List (String × Option String)) : List (String × String) :=
  m.filterMap (fun kv => kv.2.map (fun v => (kv.1, v)))

/-! ## Transport responses and typed responses -/

/-- The raw transport (`fetch`) response as the client observes it. -/
structure TResp where
  ok : Bool
  code : Nat
  statusText : String
  headers : HeadersL
  url : String
  redirected : Bool
  bodyText : String
  deriving DecidableEq, Repr

structure HTTPResponseStatus where
  ok : Bool
  code : Nat
  text : String
  deriving DecidableEq, Repr

/-- The typed response (`HTTPResponse`); the `_request`/`_response` back
references are not part of the model. -/
structure HTTPResponseM (α : Type) where
  status : HTTPResponseStatus
  headers : HeadersL
  url : String
  redirected : Bool
  body : Option α
  ratelimit : Option Ratelimit
  deriving DecidableEq, Repr

/-- `new HTTPResponse(request, response, body, ratelimit)`. -/
def mkHTTPResponse (resp : TResp) (body : Option α) (rl : Option Ratelimit) : HTTPResponseM α :=
  { status := { ok := resp.ok, code := resp.code, text := resp.statusText },
    headers := resp.headers,
    url := resp.url,
    redirected := resp.redirected,
    body := body,
    ratelimit := rl }

/-! ## Body decoding (`HTTPResponse.parseBody`) -/

/-- External decoding collaborators, over an abstract decoded-value type `α`:
`parseJson`/`parseJsonBig` return `Option.none` when `JSON.parse` /
`JSONv2.parse` would throw; `camelize` is the configured `camelizeObject`
(assumed to return a defined value); `readAs` is `clone[expect]()` for the
remaining content kinds (`Option.none` when that body read would throw). -/
structure DecodeEnv (α : Type) where
  parseJson : String → Option α
  parseJsonBig : String → Option α
  camelize : Option (α → α)
  domParse : String → α
  readAs : String → String → Option α

/-- `HTTPResponse.parseBody`: `Except.error ()` models a thrown decode
exception, `Except.ok Option.none` an `undefined` body. -/
def parseBody (denv : DecodeEnv α) (req : HTTPReq) (resp : TResp) : Except Unit (Option α) :=
  if req.expect = Option.some "none" ∨ hget resp.headers "content-length" = Option.some "0" ∨
      resp.code = 204 then
    Except.ok Option.none
  else if req.expect = Option.some "json" ∨ jsTruthyOS req.expect = false ∨
      req.expect = Option.some "jsonWithBigInts" then
    let trimmed := jsTrim resp.bodyText
    match (if req.expect = Option.some "jsonWithBigInts" then denv.parseJsonBig trimmed
           else denv.parseJson trimmed) with
    | Option.none => Except.error ()
    | Option.some b =>
      match req.camelizeResponse, denv.camelize with
      | Option.some true, Option.some f => Except.ok (Option.some (f b))
      | _, _ => Except.ok (Option.some b)
  else if req.expect = Option.some "dom" then
    Except.ok (Option.some (denv.domParse resp.bodyText))
  else
    match denv.readAs ((req.expect).getD "") resp.bodyText with
    | Option.some v => Except.ok (Option.some v)
    | Option.none => Except.error ()

/-! ## Structured errors and the REST error (`RESTError`, httpRequest's throw) -/

/-- A field value of a structured error record: a string, or an array
(rendered through `JSON.stringify`). -/
inductive ErrVal
  | str (s : String)
  | arr (xs : List String)
  deriving DecidableEq, Repr

/-- One structured error record (ordered fields, as `for (const key in error)`
enumerates them). -/
abbrev ErrorRecord := List (String × ErrVal)

/-- `Array.isArray(value) ? JSON.stringify(value) : value` (string escaping
inside `JSON.stringify` is not modelled). -/
def errValString : ErrVal → String
  | ErrVal.str s => s
  | ErrVal.arr xs => "[" ++ String.intercalate "," (xs.map (fun s => "\"" ++ s ++ "\"")) ++ "]"

/-- The inner loop of the message builder: one error record rendered as
concatenated key: "value" pairs. -/
def renderError (e : ErrorRecord) : String :=
  e.foldl (fun acc kv => acc ++ kv.1 ++ ": \"" ++ errValString kv.2 ++ "\"") ""

/-- The outer loop of the message builder: error blocks joined by "\n". -/
def renderErrors (errors : List ErrorRecord) : String :=
  errors.foldl (fun acc e => acc ++ (if acc ≠ "" then "\n" else "") ++ renderError e) ""

/-- The thrown `RESTError` (its `response` field is the loop's typed response,
which was constructed with `expect: "none"`, hence `body = Option.none`). -/
structure RESTErrorM (α : Type) where
  message : String
  isHttpError : Bool
  errors : List ErrorRecord
  httpCode : Nat
  response : HTTPResponseM α
  ratelimit : Option Ratelimit
  deriving DecidableEq, Repr

/-- External orchestration collaborators: the challenge-header parser and the
two structured-error parsers from parse-roblox-errors. -/
structure OrchestratorEnv where
  parseChallengeHeaders : HeadersL → Option ParsedChallenge
  parseBEDEV1Error : TResp → List ErrorRecord
  parseBEDEV2Error : TResp → List ErrorRecord

/-- The parser selection
`(errorHandling === "BEDEV1" ? parseBEDEV1Error : parseBEDEV2Error)(response._response)`
with `errorHandling = request.errorHandling ?? "BEDEV1"`. -/
def selErrors (env : OrchestratorEnv) (req : HTTPReq) (resp : TResp) : List ErrorRecord :=
  if (req.errorHandling).getD "BEDEV1" = "BEDEV1" then env.parseBEDEV1Error resp
  else env.parseBEDEV2Error resp

/-- The `throw new RESTError(...)` value built at the end of `httpRequest`. -/
def raiseError (env : OrchestratorEnv) (req : HTTPReq) (rl : Option Ratelimit)
    (resp : TResp) : RESTErrorM α :=
  let errors := selErrors env req resp
  let errorsAsString := renderErrors errors
  { message := "HTTP " ++ toString resp.code ++ " from " ++ ((req.method).getD "GET") ++ " " ++
      resp.url ++
      (if errorsAsString ≠ "" then
        "\n\n" ++ ((req.errorHandling).getD "BEDEV1") ++ " errors:\n" ++ errorsAsString
      else ""),
    isHttpError := true,
    errors := errors,
    httpCode := resp.code,
    response := mkHTTPResponse resp Option.none Option.none,
    ratelimit := rl }

/-! ## The request orchestrator (`HTTPClient.httpRequest`) -/

/-- Outcome of one `httpRequest` call: a returned typed response, a thrown
`RESTError`, or a thrown body-decode exception (e.g. `JSON.parse`). -/
inductive HttpResult (α : Type)
  | success (resp : HTTPResponseM α)
  | failure (e : RESTErrorM α)
  | decodeError
  deriving DecidableEq, Repr

/-- `retries && retries > 0 && RETRY_ERROR_CODES.includes(response.status.code)`. -/
def retryGuard (retries : Option Int) (code : Nat) : Bool :=
  match retries with
  | Option.some v => (v != 0) && decide (0 < v) && decide (code ∈ RETRY_ERROR_CODES)
  | Option.none => false

/-- `retries--`. -/
def retriesDec : Option Int → Option Int
  | Option.some v => Option.some (v - 1)
  | Option.none => Option.none

/-- Does a returned `HttpResult` carry a thrown `RESTError`? -/
def isFailureR : HttpResult α → Bool
  | HttpResult.failure _ => true
  | _ => false

/-- The `while (true)` retry loop of `httpRequest`, lines 574-677.  Each list
element is the transport response the next dispatch would receive;
`Option.none` means the supplied responses ran out before the loop reached a
terminal state.  The result also carries the final CSRF store and the number
of dispatches performed. -/
def httpRequestLoop (env : OrchestratorEnv) (denv : DecodeEnv α) (req : HTTPReq)
    (isRobloxApiRequest : Bool) :
    HeadersL → Option Int → CsrfTokens → List TResp → Option (HttpResult α × CsrfTokens × Nat)
  | _, _, _, [] => Option.none
  | headers, retries, st, resp :: rest =>
    if isRobloxApiRequest = true ∧ resp.code = 403 ∧
        hhas resp.headers CSRF_TOKEN_HEADER_NAME = true then
      let csrfToken := (hget resp.headers CSRF_TOKEN_HEADER_NAME).getD ""
      Option.map (fun x => (x.1, x.2.1, x.2.2 + 1))
        (httpRequestLoop env denv req isRobloxApiRequest
          (hset headers CSRF_TOKEN_HEADER_NAME csrfToken)
          retries
          (setCsrfToken st (Option.some csrfToken) (req.includeCredentials == Option.some true)
            ((req.accountToken).getD DEFAULT_ACCOUNT_TOKEN))
          rest)
    else
      let ratelimitHeaders := parseRatelimitHeaders resp.headers
      let challengeHeaders : Option HeadersL :=
        if isRobloxApiRequest = true ∧ resp.ok = false then
          match req.handleChallenge with
          | Option.some handler =>
            match env.parseChallengeHeaders resp.headers with
            | Option.some parsed =>
              match handler parsed with
              | Option.some nc =>
                Option.some
                  (hset (hset (hset headers GENERIC_CHALLENGE_TYPE_HEADER nc.challengeType)
                      GENERIC_CHALLENGE_ID_HEADER nc.challengeId)
                    GENERIC_CHALLENGE_METADATA_HEADER nc.challengeBase64Metadata)
              | Option.none => Option.none
            | Option.none => Option.none
          | Option.none => Option.none
        else Option.none
      match challengeHeaders with
      | Option.some headers2 =>
        Option.map (fun x => (x.1, x.2.1, x.2.2 + 1))
          (httpRequestLoop env denv req isRobloxApiRequest headers2 retries st rest)
      | Option.none =>
        if req.errorHandling ≠ Option.some "none" ∧ resp.ok = false then
          if retryGuard retries resp.code = true then
            Option.map (fun x => (x.1, x.2.1, x.2.2 + 1))
              (httpRequestLoop env denv req isRobloxApiRequest headers (retriesDec retries) st rest)
          else
            Option.some (HttpResult.failure (raiseError env req ratelimitHeaders resp), st, 1)
        else
          match parseBody denv req resp with
          | Except.ok b =>
            Option.some (HttpResult.success (mkHTTPResponse resp b ratelimitHeaders), st, 1)
          | Except.error _ => Option.some (HttpResult.decodeError, st, 1)

/-- `HTTPClient.httpRequest`: initial header clone, pre-loop CSRF header
seeding, then the retry loop.  `domToken` is only consulted by the DOM
fallback of `getCsrfToken`. -/
def httpRequest (env : OrchestratorEnv) (denv : DecodeEnv α) (opts : HTTPClientOptions)
    (req : HTTPReq) (st : CsrfTokens) (domToken : Option String) (responses : List TResp) :
    Option (HttpResult α × CsrfTokens × Nat) :=
  let method := (req.method).getD "GET"
  let headers0 : HeadersL :=
    match req.headers with
    | Option.some (HeadersV.hdrs h) => h
    | Option.some (HeadersV.obj m) => filterObject m
    | Option.none => []
  let isRobloxApiRequest := jsIncludes req.url opts.domainsMain
  let includeCsrfFlag :=
    match req.includeCsrf with
    | Option.some b => b
    | Option.none => method != "GET"
  let headers1 :=
    if isRobloxApiRequest && includeCsrfFlag then
      match getCsrfToken opts st domToken (req.includeCredentials == Option.some true)
          ((req.accountToken).getD DEFAULT_ACCOUNT_TOKEN) with
      | Option.some tok => if tok != "" then hset headers0 CSRF_TOKEN_HEADER_NAME tok else headers0
      | Option.none => headers0
    else headers0
  httpRequestLoop env denv req isRobloxApiRequest headers1 req.retries st responses

/-! ## URL builder (`HTTPClient.formatRequestUrl`) -/

/-- The platform pieces `formatRequestUrl` relies on: `URL.canParse`
(`canParseURL` in src/src/utils.ts), `location.href`, and the WHATWG URL
parser's view of the hostname / protocol of `new URL(input, base?)`. -/
structure URLEnv where
  canParseURL : String → Bool
  locationHref : String
  urlHostname : String → Option String → String
  urlProtocol : String → Option String → String

/-- Symbolic view of the `URL` object `formatRequestUrl` returns: the string
handed to the constructor, the optional base (`location.href`), the query
entries appended via `searchParams.append`, and whether the dev-mode
localhost rule forced the protocol to `http:`. -/
structure FormattedURL where
  input : String
  base : Option String
  appended : List (String × String)
  forcedHttp : Bool
  deriving DecidableEq, Repr

/-- Result of `formatRequestUrl` together with the final contents of the
caller-supplied `URLSearchParams` object, when the descriptor carried one
(the code mutates that object in place via `search.set`). -/
structure FormatResult where
  url : FormattedURL
  callerSearch : Option (List (String × String))
  deriving DecidableEq, Repr

/-- `HTTPClient.formatRequestUrl(request, protocol = "https")`. -/
def formatRequestUrl (uenv : URLEnv) (opts : HTTPClientOptions) (req : HTTPReq)
    (protocol : String) : FormatResult :=
  if jsIncludes req.url opts.domainsCdn then
    { url :=
        if uenv.canParseURL req.url then
          { input := req.url, base := Option.none, appended := [], forcedHttp := false }
        else
          { input := protocol ++ "://" ++ stripProtocol req.url, base := Option.none,
            appended := [], forcedHttp := false },
      callerSearch :=
        match req.search with
        | Option.some (SearchV.sp l) => Option.some l
        | _ => Option.none }
  else
    let search0 : List (String × String) :=
      match req.search with
      | Option.none => []
      | Option.some (SearchV.sp l) => l
      | Option.some (SearchV.obj m) => filterObject m
    let search1 :=
      if jsTruthyOS req.accountToken && jsTruthyOS opts.accountTokenSearchParam then
        spSet search0 ((opts.accountTokenSearchParam).getD "") ((req.accountToken).getD "")
      else search0
    let search2 :=
      if jsTruthyOS req.overrideDeviceType then
        if jsTruthyOS opts.overrideDeviceTypeHeaderName then
          spSet search1 ((opts.overrideDeviceTypeHeaderName).getD "")
            ((req.overrideDeviceType).getD "")
        else search1
      else if jsTruthyOS opts.trackingSearchParam then
        spSet search1 ((opts.trackingSearchParam).getD "") ""
      else search1
    let resolved : String × Option String :=
      if jsStartsWith req.url "/" ||
          (uenv.canParseURL req.url && opts.isDev && !(jsStartsWith req.url "localhost:")) then
        (req.url, Option.some uenv.locationHref)
      else
        (protocol ++ "://" ++ stripProtocol req.url, Option.none)
    let forced :=
      opts.isDev && (uenv.urlHostname resolved.1 resolved.2 == "localhost") &&
        (uenv.urlProtocol resolved.1 resolved.2 == "https:")
    { url :=
        { input := resolved.1, base := resolved.2, appended := search2, forcedHttp := forced },
      callerSearch :=
        match req.search with
        | Option.some (SearchV.sp _) => Option.some search2
        | _ => Option.none }

/-! ## Concrete fixtures for witnesses and counterexamples -/

/-- A decode environment over `Nat` for concrete runs. -/
def denv0 : DecodeEnv Nat :=
  { parseJson := fun _ => Option.some 1,
    parseJsonBig := fun _ => Option.some 1,
    camelize := Option.none,
    domParse := fun _ => 1,
    readAs := fun _ _ => Option.some 1 }

/-- A decode environment whose camelizer adds one, to observe camelization. -/
def denv9 : DecodeEnv Nat :=
  { parseJson := fun _ => Option.some 1,
    parseJsonBig := fun _ => Option.some 5,
    camelize := Option.some (fun n => n + 1),
    domParse := fun _ => 7,
    readAs := fun _ _ => Option.some 9 }

/-- An orchestration environment with no challenges and fixed parser output. -/
def env0 : OrchestratorEnv :=
  { parseChallengeHeaders := fun _ => Option.none,
    parseBEDEV1Error := fun _ => [[("code", ErrVal.str "1")], [("code", ErrVal.str "2")]],
    parseBEDEV2Error := fun _ => [] }

def opts0 : HTTPClientOptions :=
  { domainsMain := "roblox.com",
    domainsCdn := "rbxcdn.com",
    onWebsite := false,
    accountTokenSearchParam := Option.none,
    overrideDeviceTypeHeaderName := Option.none,
    trackingSearchParam := Option.none,
    isDev := false }

/-- Options of a browser-embedded client (for the CSRF DOM fallback). -/
def optsW : HTTPClientOptions :=
  { domainsMain := "roblox.com",
    domainsCdn := "rbxcdn.com",
    onWebsite := true,
    accountTokenSearchParam := Option.none,
    overrideDeviceTypeHeaderName := Option.none,
    trackingSearchParam := Option.none,
    isDev := false }

/-- Options with a tracking query parameter configured. -/
def optsT : HTTPClientOptions :=
  { domainsMain := "roblox.com",
    domainsCdn := "rbxcdn.com",
    onWebsite := false,
    accountTokenSearchParam := Option.none,
    overrideDeviceTypeHeaderName := Option.none,
    trackingSearchParam := Option.some "tracking",
    isDev := false }

def st0 : CsrfTokens := { accounts := [], ip := Option.none }

/-- A URL environment in which nothing parses as an absolute URL. -/
def uenv0 : URLEnv :=
  { canParseURL := fun _ => false,
    locationHref := "https://www.roblox.com/home",
    urlHostname := fun _ _ => "example.com",
    urlProtocol := fun _ _ => "https:" }

/-- A plain GET request to a non-main host, no retries, default error handling. -/
def req0 : HTTPReq :=
  { method := Option.none,
    url := "https://example.com/a",
    search := Option.none,
    headers := Option.none,
    expect := Option.some "none",
    includeCredentials := Option.none,
    camelizeResponse := Option.none,
    accountToken := Option.none,
    overrideDeviceType := Option.none,
    includeCsrf := Option.none,
    retries := Option.none,
    errorHandling := Option.none,
    handleChallenge := Option.none }

/-- Retrying request to the main host: budget 2, default error handling. -/
def reqR : HTTPReq :=
  { req0 with url := "https://apis.roblox.com/x", retries := Option.some 2 }

/-- Request with `errorHandling: "none"`. -/
def reqN : HTTPReq :=
  { req0 with errorHandling := Option.some "none" }

/-- Request carrying a caller-built `URLSearchParams`. -/
def reqS : HTTPReq :=
  { req0 with url := "example.com/x", search := Option.some (SearchV.sp [("a", "b")]) }

/-- A 503 transport response. -/
def r503 : TResp :=
  { ok := false, code := 503, statusText := "Service Unavailable", headers := [],
    url := "https://apis.roblox.com/x", redirected := false, bodyText := "" }

/-- A 200 transport response with an empty body. -/
def r200 : TResp :=
  { ok := true, code := 200, statusText := "OK", headers := [("content-length", "0")],
    url := "https://apis.roblox.com/x", redirected := false, bodyText := "" }

/-- A 404 transport response with an empty body. -/
def r404 : TResp :=
  { ok := false, code := 404, statusText := "Not Found", headers := [("content-length", "0")],
    url := "https://example.com/a", redirected := false, bodyText := "" }

/-- A 400 transport response (for the terminal-error path). -/
def r400 : TResp :=
  { ok := false, code := 400, statusText := "Bad Request", headers := [],
    url := "https://example.com/a", redirected := false, bodyText := "" }

/-- A 403 main-host response carrying a fresh CSRF token. -/
def r403 : TResp :=
  { ok := false, code := 403, statusText := "Forbidden",
    headers := [("x-csrf-token", "tok")],
    url := "https://apis.roblox.com/x", redirected := false, bodyText := "" }

/-! ## Helper lemmas -/

theorem find_assocSet_self (l : List (String × Option String)) (k : String) (v : Option String) :
    (assocSet l k v).find? (fun kv => kv.1 = k) = Option.some (k, v) := by
  induction l with
  | nil => simp [assocSet]
  | cons kv rest ih =>
    by_cases h : kv.1 = k
    · simp [assocSet, h]
    · simp [assocSet, h, ih]

theorem lookupAccount_setCsrfToken_self (st : CsrfTokens) (v : Option String) (a : String) :
    lookupAccount (setCsrfToken st v true a) a = v := by
  simp [lookupAccount, setCsrfToken, find_assocSet_self]

/-! ## Claim theorems -/

/-- Claim C7: the decoded body of a constructed typed response is `undefined`
exactly when the expected kind is "none", the content-length header is "0",
or the status is 204. -/
theorem parseBody_undefined_iff (denv : DecodeEnv α) (req : HTTPReq) (resp : TResp) :
    parseBody denv req resp = Except.ok Option.none ↔
      (req.expect = Option.some "none" ∨ hget resp.headers "content-length" = Option.some "0" ∨
        resp.code = 204) := by
  by_cases h : (req.expect = Option.some "none" ∨
      hget resp.headers "content-length" = Option.some "0" ∨ resp.code = 204)
  · simp [parseBody, h]
  · have hne : parseBody denv req resp ≠ Except.ok Option.none := by
      simp only [parseBody]
      rw [if_neg h]
      split
      · split <;> try split
        all_goals simp
      · split
        · simp
        · split <;> simp
    simp [hne, h]

/-- Claim C9: an unspecified expected-response-kind decodes along the same path
as `expect: "json"` (camelization included) rather than being treated as
"none"; a concrete run with camelization enabled yields the camelized JSON
value, not `undefined`. -/
theorem parseBody_unset_expect_json (denv : DecodeEnv α) (req : HTTPReq) (resp : TResp) :
    parseBody denv { req with expect := Option.none } resp
      = parseBody denv { req with expect := Option.some "json" } resp
    ∧ parseBody denv9 { req0 with expect := Option.none, camelizeResponse := Option.some true }
        { r400 with code := 200, headers := [], bodyText := "1" } = Except.ok (Option.some 2) := by
  constructor
  · by_cases h : (hget resp.headers "content-length" = Option.some "0" ∨ resp.code = 204)
    · rcases h with h | h <;> simp [parseBody, h]
    · push_neg at h
      obtain ⟨h1, h2⟩ := h
      simp [parseBody, h1, h2, jsTruthyOS]
  · rfl

/-- Claim C8: `parseRatelimitHeaders` returns nothing when the limit header is
absent; otherwise the snapshot keeps the limit verbatim and parses
remaining/reset in base 10, yielding `NaN` (modelled `Option.none`) for
missing or unparsable values. -/
theorem parseRatelimitHeaders_spec :
    (∀ h : HeadersL, hhas h RATELIMIT_LIMIT_HEADER = false → parseRatelimitHeaders h = Option.none)
    ∧ (∀ (h : HeadersL) (l : String), hget h RATELIMIT_LIMIT_HEADER = Option.some l →
        parseRatelimitHeaders h = Option.some
          { _limit := l,
            remaining := jsParseIntOpt (hget h RATELIMIT_REMAINING_HEADER),
            reset := jsParseIntOpt (hget h RATELIMIT_RESET_HEADER) })
    ∧ parseRatelimitHeaders
        [(RATELIMIT_LIMIT_HEADER, "100"), (RATELIMIT_REMAINING_HEADER, "42"),
          (RATELIMIT_RESET_HEADER, "1700000000")]
        = Option.some
          { _limit := "100", remaining := Option.some 42,
            reset := Option.some 1700000000 }
    ∧ parseRatelimitHeaders [(RATELIMIT_LIMIT_HEADER, "100")]
        = Option.some { _limit := "100", remaining := Option.none, reset := Option.none }
    ∧ jsParseIntOpt (Option.some "abc") = Option.none := by
  refine ⟨?_, ?_, by decide, by decide, by decide⟩
  · intro h hf
    simp [parseRatelimitHeaders, hf]
  · intro h l hl
    simp [parseRatelimitHeaders, hhas, hl]

/-- Witness for C8 at a concrete header collection without a limit header. -/
theorem parseRatelimitHeaders_spec_witness :
    parseRatelimitHeaders [("x-other", "1")] = Option.none :=
  parseRatelimitHeaders_spec.1 [("x-other", "1")] (by decide)

/-- Claim C10: a URL containing the CDN host is returned immediately (parsed
directly when well-formed, else prefixed with the default protocol); no
descriptor search parameters, account-token parameter, or
device-override/tracking parameters are appended, and a caller-supplied
`URLSearchParams` is left untouched. -/
theorem formatRequestUrl_cdn_early_return (uenv : URLEnv) (opts : HTTPClientOptions)
    (req : HTTPReq) (protocol : String)
    (hcdn : jsIncludes req.url opts.domainsCdn = true) :
    (formatRequestUrl uenv opts req protocol).url
        = (if uenv.canParseURL req.url then
            { input := req.url, base := Option.none, appended := [], forcedHttp := false }
          else
            { input := protocol ++ "://" ++ stripProtocol req.url, base := Option.none,
              appended := [], forcedHttp := false })
    ∧ (formatRequestUrl uenv opts req protocol).url.appended = []
    ∧ (formatRequestUrl uenv opts req protocol).callerSearch
        = (match req.search with
          | Option.some (SearchV.sp l) => Option.some l
          | _ => Option.none) := by
  refine ⟨?_, ?_, ?_⟩
  · simp [formatRequestUrl, hcdn]
  · simp only [formatRequestUrl, hcdn, if_true]
    split <;> rfl
  · simp [formatRequestUrl, hcdn]

/-- Witness for C10 on a concrete CDN request. -/
theorem formatRequestUrl_cdn_early_return_witness :
    (formatRequestUrl uenv0 opts0 { req0 with url := "tr.rbxcdn.com/img" } "https").url
        = (if uenv0.canParseURL "tr.rbxcdn.com/img" then
            { input := "tr.rbxcdn.com/img", base := Option.none, appended := [],
              forcedHttp := false }
          else
            { input := "https" ++ "://" ++ stripProtocol "tr.rbxcdn.com/img",
              base := Option.none, appended := [], forcedHttp := false })
    ∧ (formatRequestUrl uenv0 opts0 { req0 with url := "tr.rbxcdn.com/img" } "https").url.appended
        = []
    ∧ (formatRequestUrl uenv0 opts0 { req0 with url := "tr.rbxcdn.com/img" } "https").callerSearch
        = (match ({ req0 with url := "tr.rbxcdn.com/img" } : HTTPReq).search with
          | Option.some (SearchV.sp l) => Option.some l
          | _ => Option.none) :=
  formatRequestUrl_cdn_early_return uenv0 opts0 { req0 with url := "tr.rbxcdn.com/img" } "https"
    (by decide)

/-- Claim C5 counterexample: with a tracking query parameter configured,
`formatRequestUrl` mutates the caller-supplied `URLSearchParams` in place —
after the call it contains the injected tracking entry, so it is not left
unchanged as the claim states. -/
theorem formatRequestUrl_mutates_caller_search_counterexample :
    (formatRequestUrl uenv0 optsT reqS "https").callerSearch
        = Option.some [("a", "b"), ("tracking", "")]
    ∧ Option.some [("a", "b"), ("tracking", "")] ≠ Option.some [("a", "b")]
    ∧ reqS.search = Option.some (SearchV.sp [("a", "b")]) := by
  refine ⟨by decide, by decide, rfl⟩

/-- Claim C5 (amended): the orchestrator mutates only its local header clone,
and `formatRequestUrl` leaves a caller-supplied `URLSearchParams` unchanged
whenever no account-token, device-override, or tracking query parameter is
injected (the injections are the only descriptor mutation). -/
theorem formatRequestUrl_caller_search_preserved_without_injection (uenv : URLEnv)
    (opts : HTTPClientOptions) (req : HTTPReq) (protocol : String) (l : List (String × String))
    (hsp : req.search = Option.some (SearchV.sp l))
    (hacct : (jsTruthyOS req.accountToken && jsTruthyOS opts.accountTokenSearchParam) = false)
    (hdev : (if jsTruthyOS req.overrideDeviceType = true then
        jsTruthyOS opts.overrideDeviceTypeHeaderName
      else jsTruthyOS opts.trackingSearchParam) = false) :
    (formatRequestUrl uenv opts req protocol).callerSearch = Option.some l := by
  by_cases hc : jsIncludes req.url opts.domainsCdn = true
  · simp [formatRequestUrl, hc, hsp]
  · by_cases hd : jsTruthyOS req.overrideDeviceType = true
    · rw [if_pos hd] at hdev
      simp [formatRequestUrl, hc, hsp, hacct, hd, hdev]
    · rw [if_neg hd] at hdev
      simp only [Bool.not_eq_true] at hd
      simp [formatRequestUrl, hc, hsp, hacct, hd, hdev]

/-- Witness for the amended C5 on a concrete descriptor with no injected
parameters. -/
theorem formatRequestUrl_caller_search_preserved_without_injection_witness :
    (formatRequestUrl uenv0 opts0 reqS "https").callerSearch = Option.some [("a", "b")] :=
  formatRequestUrl_caller_search_preserved_without_injection uenv0 opts0 reqS "https"
    [("a", "b")] rfl (by decide) (by decide)

/-- Claim C6 counterexample: the round trip fails for the empty token — after
`setCsrfToken("", true, "default")` on a browser-embedded client whose page
holds a DOM token, `getCsrfToken(true, "default")` returns the DOM token,
not the stored empty token. -/
theorem csrf_store_empty_token_dom_fallback_counterexample :
    getCsrfToken optsW (setCsrfToken st0 (Option.some "") true DEFAULT_ACCOUNT_TOKEN)
        (Option.some "domtoken") true DEFAULT_ACCOUNT_TOKEN = Option.some "domtoken"
    ∧ (Option.some "domtoken" : Option String) ≠ Option.some "" := by
  refine ⟨by decide, by decide⟩

/-- Claim C6 (amended): for every non-empty token `t` and account `a`, after
`setCsrfToken(t, true, a)` both `getCsrfToken(true, a)` and
`getCsrfToken(false)` return `t`; `setCsrfToken` always writes the anonymous
slot and writes the per-account slot exactly when `authorized` is true.  (For
a falsy stored token under the default account on a browser-embedded client,
`getCsrfToken(true)` instead falls back to the page-embedded DOM token.) -/
theorem csrf_store_set_get_roundtrip (opts : HTTPClientOptions) (st : CsrfTokens)
    (dom : Option String) (t a : String) (ht : t ≠ "") :
    getCsrfToken opts (setCsrfToken st (Option.some t) true a) dom true a = Option.some t
    ∧ (∀ (dom2 : Option String) (a2 : String),
        getCsrfToken opts (setCsrfToken st (Option.some t) true a) dom2 false a2 = Option.some t)
    ∧ (∀ (v : Option String) (auth : Bool) (a3 : String), (setCsrfToken st v auth a3).ip = v)
    ∧ (∀ (v : Option String) (a3 : String), lookupAccount (setCsrfToken st v true a3) a3 = v)
    ∧ (∀ (v : Option String) (a3 : String),
        lookupAccount (setCsrfToken st v false a3) a3 = lookupAccount st a3) := by
  refine ⟨?_, ?_, ?_, ?_, ?_⟩
  · simp [getCsrfToken, lookupAccount_setCsrfToken_self, jsTruthyOS, ht]
  · intro dom2 a2
    simp [getCsrfToken, setCsrfToken, jsTruthyOS, ht]
  · intro v auth a3
    simp [setCsrfToken]
  · intro v a3
    exact lookupAccount_setCsrfToken_self st v a3
  · intro v a3
    simp [lookupAccount, setCsrfToken]

/-- Witness for the amended C6 at a concrete non-empty token. -/
theorem csrf_store_set_get_roundtrip_witness :
    getCsrfToken optsW (setCsrfToken st0 (Option.some "tok") true "acct1")
        Option.none true "acct1" = Option.some "tok" :=
  (csrf_store_set_get_roundtrip optsW st0 Option.none "tok" "acct1" (by decide)).1

theorem mem_retry_codes_ne_403 {c : Nat} (hc : c ∈ RETRY_ERROR_CODES) : c ≠ 403 := by
  simp [RETRY_ERROR_CODES] at hc
  rcases hc with h | h | h | h <;> omega

theorem all_not_failure_map (o : Option (HttpResult α × CsrfTokens × Nat))
    (h : Option.all (fun x => !(isFailureR x.1)) o = true) :
    Option.all (fun x => !(isFailureR x.1))
      (Option.map (fun x => (x.1, x.2.1, x.2.2 + 1)) o) = true := by
  cases o <;> simp_all

theorem loop_no_failure (env : OrchestratorEnv) (denv : DecodeEnv α) (req : HTTPReq)
    (isR : Bool) (hmode : req.errorHandling = Option.some "none") :
    ∀ (rs : List TResp) (hdr : HeadersL) (retries : Option Int) (st : CsrfTokens),
      Option.all (fun x => !(isFailureR x.1)) (httpRequestLoop env denv req isR hdr retries st rs)
        = true := by
  intro rs
  induction rs with
  | nil => intro hdr retries st; rfl
  | cons resp rest ih =>
    intro hdr retries st
    simp only [httpRequestLoop]
    split
    · exact all_not_failure_map _ (ih _ _ _)
    · split
      · exact all_not_failure_map _ (ih _ _ _)
      · rw [if_neg (by simp [hmode])]
        split <;> rfl

/-- Claim C4: with error-handling mode "none", `httpRequest` never raises a
`RESTError` on any response sequence; in particular a GET to a non-main host
answering 404 returns the typed response with `status.ok = false` instead of
throwing. -/
theorem httpRequest_errorHandling_none_never_raises (env : OrchestratorEnv)
    (denv : DecodeEnv α) (opts : HTTPClientOptions) (req : HTTPReq) (st : CsrfTokens)
    (dom : Option String) (hmode : req.errorHandling = Option.some "none") :
    (∀ rs : List TResp,
      Option.all (fun x => !(isFailureR x.1)) (httpRequest env denv opts req st dom rs) = true)
    ∧ httpRequest env0 denv0 opts0 reqN st0 Option.none [r404]
        = Option.some (HttpResult.success (mkHTTPResponse r404 Option.none Option.none), st0, 1)
    ∧ (mkHTTPResponse r404 (Option.none : Option Nat) Option.none).status.ok = false := by
  refine ⟨?_, by decide, by decide⟩
  intro rs
  simp only [httpRequest]
  exact loop_no_failure env denv req _ hmode rs _ _ _

/-- Witness for C4 on a concrete run with `errorHandling: "none"`. -/
theorem httpRequest_errorHandling_none_never_raises_witness :
    Option.all (fun x => !(isFailureR x.1))
      (httpRequest env0 denv0 opts0 reqN st0 Option.none [r404, r404]) = true :=
  (httpRequest_errorHandling_none_never_raises env0 denv0 opts0 reqN st0 Option.none
    rfl).1 [r404, r404]

theorem loop_all_retryable_fail (env : OrchestratorEnv) (denv : DecodeEnv α) (req : HTTPReq)
    (isR : Bool) (hmode : req.errorHandling ≠ Option.some "none")
    (hch : req.handleChallenge = Option.none) :
    ∀ (rs : List TResp) (rlast : TResp) (hdr : HeadersL) (st : CsrfTokens) (v : Int),
      v = rs.length →
      (∀ r ∈ rs, r.ok = false ∧ r.code ∈ RETRY_ERROR_CODES) →
      rlast.ok = false → rlast.code ∈ RETRY_ERROR_CODES →
      httpRequestLoop env denv req isR hdr (Option.some v) st (rs ++ [rlast])
        = Option.some (HttpResult.failure
            (raiseError env req (parseRatelimitHeaders rlast.headers) rlast), st,
            rs.length + 1) := by
  intro rs
  induction rs with
  | nil =>
    intro rlast hdr st v hv hall hok hcode
    have h403 : rlast.code ≠ 403 := mem_retry_codes_ne_403 hcode
    subst hv
    simp only [List.length_nil, Nat.cast_zero, List.nil_append, httpRequestLoop]
    rw [if_neg (by rintro ⟨-, h, -⟩; exact h403 h)]
    simp only [hch, ite_self]
    rw [if_pos ⟨hmode, hok⟩]
    rw [if_neg (by simp [retryGuard])]
  | cons r rs ih =>
    intro rlast hdr st v hv hall hok hcode
    obtain ⟨hrok, hrcode⟩ := hall r (List.mem_cons_self r rs)
    have hall' : ∀ x ∈ rs, x.ok = false ∧ x.code ∈ RETRY_ERROR_CODES :=
      fun x hx => hall x (List.mem_cons_of_mem _ hx)
    have h403 : r.code ≠ 403 := mem_retry_codes_ne_403 hrcode
    rw [List.length_cons] at hv
    have hvne : v ≠ 0 := by rw [hv]; omega
    have hvpos : 0 < v := by rw [hv]; omega
    have hguard : retryGuard (Option.some v) r.code = true := by
      simp only [retryGuard, Bool.and_eq_true, bne_iff_ne, ne_eq, decide_eq_true_eq]
      exact ⟨⟨hvne, hvpos⟩, hrcode⟩
    have hdec : retriesDec (Option.some v) = Option.some ((rs.length : Int)) := by
      simp only [retriesDec, Option.some.injEq]
      rw [hv]
      omega
    simp only [List.cons_append, httpRequestLoop, List.append_eq]
    rw [if_neg (by rintro ⟨-, h, -⟩; exact h403 h)]
    simp only [hch, ite_self]
    rw [if_pos ⟨hmode, hrok⟩]
    rw [if_pos hguard]
    rw [hdec, ih rlast hdr st _ rfl hall' hok hcode]
    simp [List.length_cons]

theorem loop_retry_then_ok (env : OrchestratorEnv) (denv : DecodeEnv α) (req : HTTPReq)
    (isR : Bool) (hmode : req.errorHandling ≠ Option.some "none")
    (hch : req.handleChallenge = Option.none) :
    ∀ (pre : List TResp) (okr : TResp) (b : Option α) (hdr : HeadersL) (st : CsrfTokens)
      (v : Int),
      (pre.length : Int) ≤ v →
      (∀ r ∈ pre, r.ok = false ∧ r.code ∈ RETRY_ERROR_CODES) →
      okr.ok = true → okr.code ≠ 403 →
      parseBody denv req okr = Except.ok b →
      httpRequestLoop env denv req isR hdr (Option.some v) st (pre ++ [okr])
        = Option.some (HttpResult.success
            (mkHTTPResponse okr b (parseRatelimitHeaders okr.headers)), st, pre.length + 1) := by
  intro pre
  induction pre with
  | nil =>
    intro okr b hdr st v hle hall hok h403 hpb
    simp only [List.nil_append, httpRequestLoop]
    rw [if_neg (by rintro ⟨-, h, -⟩; exact h403 h)]
    rw [if_neg (by simp [hok])]
    rw [if_neg (by simp [hok])]
    rw [hpb]
    simp
  | cons r pre ih =>
    intro okr b hdr st v hle hall hok h403 hpb
    obtain ⟨hrok, hrcode⟩ := hall r (List.mem_cons_self r pre)
    have hall' : ∀ x ∈ pre, x.ok = false ∧ x.code ∈ RETRY_ERROR_CODES :=
      fun x hx => hall x (List.mem_cons_of_mem _ hx)
    have hr403 : r.code ≠ 403 := mem_retry_codes_ne_403 hrcode
    rw [List.length_cons] at hle
    have hvne : v ≠ 0 := by omega
    have hvpos : 0 < v := by omega
    have hguard : retryGuard (Option.some v) r.code = true := by
      simp only [retryGuard, Bool.and_eq_true, bne_iff_ne, ne_eq, decide_eq_true_eq]
      exact ⟨⟨hvne, hvpos⟩, hrcode⟩
    simp only [List.cons_append, httpRequestLoop, List.append_eq]
    rw [if_neg (by rintro ⟨-, h, -⟩; exact hr403 h)]
    simp only [hch, ite_self]
    rw [if_pos ⟨hmode, hrok⟩]
    rw [if_pos hguard]
    have hstep := ih okr b hdr st (v - 1) (by omega) hall' hok h403 hpb
    simp only [retriesDec]
    rw [hstep]
    simp [List.length_cons]

/-- Claim C1: with error-handling mode not "none" and retry budget `n`, a run
of non-ok responses with codes in {500, 502, 503, 504} (no CSRF rotation —
impossible at these codes — and no challenge handler) is redispatched exactly
`n` times, and the (n+1)-th such response raises the terminal REST error;
if an ok response arrives within the budget, it is returned without raising. -/
theorem httpRequest_retry_budget (env : OrchestratorEnv) (denv : DecodeEnv α)
    (opts : HTTPClientOptions) (req : HTTPReq) (st : CsrfTokens) (dom : Option String) (n : Nat)
    (hmode : req.errorHandling ≠ Option.some "none")
    (hch : req.handleChallenge = Option.none)
    (hret : req.retries = Option.some (n : Int)) :
    (∀ (rs : List TResp) (rlast : TResp), rs.length = n →
      (∀ r ∈ rs, r.ok = false ∧ r.code ∈ RETRY_ERROR_CODES) →
      rlast.ok = false → rlast.code ∈ RETRY_ERROR_CODES →
      httpRequest env denv opts req st dom (rs ++ [rlast])
        = Option.some (HttpResult.failure
            (raiseError env req (parseRatelimitHeaders rlast.headers) rlast), st, n + 1))
    ∧ (∀ (pre : List TResp) (okr : TResp) (b : Option α), pre.length ≤ n →
        (∀ r ∈ pre, r.ok = false ∧ r.code ∈ RETRY_ERROR_CODES) →
        okr.ok = true → okr.code ≠ 403 →
        parseBody denv req okr = Except.ok b →
        httpRequest env denv opts req st dom (pre ++ [okr])
          = Option.some (HttpResult.success
              (mkHTTPResponse okr b (parseRatelimitHeaders okr.headers)), st,
              pre.length + 1)) := by
  constructor
  · intro rs rlast hlen hall hok hcode
    subst hlen
    simp only [httpRequest, hret]
    exact loop_all_retryable_fail env denv req _ hmode hch rs rlast _ st _ rfl hall hok hcode
  · intro pre okr b hle hall hok h403 hpb
    simp only [httpRequest, hret]
    exact loop_retry_then_ok env denv req _ hmode hch pre okr b _ st _
      (by exact_mod_cast hle) hall hok h403 hpb

/-- Witness for C1: budget 2, three 503 responses — two redispatches, then the
terminal failure on the third. -/
theorem httpRequest_retry_budget_witness :
    httpRequest env0 denv0 opts0 reqR st0 Option.none ([r503, r503] ++ [r503])
      = Option.some (HttpResult.failure
          (raiseError env0 reqR (parseRatelimitHeaders r503.headers) r503), st0, 3) :=
  (httpRequest_retry_budget env0 denv0 opts0 reqR st0 Option.none 2 (by decide) rfl
    (by decide)).1 [r503, r503] r503 rfl (by decide) (by decide) (by decide)

/-- Claim C2: during `httpRequest` to a URL containing the main-API host, a
dispatch answering 403 with a CSRF token header rotates the store with that
token, sets it on the shared retry header collection, and redispatches —
leaving the retry budget unchanged, whatever it is (the step holds at any
loop state). -/
theorem httpRequest_csrf_rotation_step (env : OrchestratorEnv) (denv : DecodeEnv α)
    (opts : HTTPClientOptions) (req : HTTPReq) (hdr : HeadersL) (retries : Option Int)
    (st : CsrfTokens) (r : TResp) (rest : List TResp) (t : String)
    (hmain : jsIncludes req.url opts.domainsMain = true)
    (h403 : r.code = 403)
    (htok : hget r.headers CSRF_TOKEN_HEADER_NAME = Option.some t) :
    httpRequestLoop env denv req (jsIncludes req.url opts.domainsMain) hdr retries st (r :: rest)
      = Option.map (fun x => (x.1, x.2.1, x.2.2 + 1))
          (httpRequestLoop env denv req (jsIncludes req.url opts.domainsMain)
            (hset hdr CSRF_TOKEN_HEADER_NAME t) retries
            (setCsrfToken st (Option.some t) (req.includeCredentials == Option.some true)
              ((req.accountToken).getD DEFAULT_ACCOUNT_TOKEN)) rest) := by
  conv_lhs => rw [httpRequestLoop]
  rw [if_pos ⟨hmain, h403, by simp [hhas, htok]⟩]
  simp [htok]

/-- Witness for the C2 rotation step at a concrete 403 response. -/
theorem httpRequest_csrf_rotation_step_witness :
    httpRequestLoop env0 denv0 reqR (jsIncludes reqR.url opts0.domainsMain) [] (Option.some 2)
        st0 [r403]
      = Option.map (fun x => (x.1, x.2.1, x.2.2 + 1))
          (httpRequestLoop env0 denv0 reqR (jsIncludes reqR.url opts0.domainsMain)
            (hset [] CSRF_TOKEN_HEADER_NAME "tok") (Option.some 2)
            (setCsrfToken st0 (Option.some "tok") (reqR.includeCredentials == Option.some true)
              ((reqR.accountToken).getD DEFAULT_ACCOUNT_TOKEN)) []) :=
  httpRequest_csrf_rotation_step env0 denv0 opts0 reqR [] (Option.some 2) st0 r403 [] "tok"
    (by decide) (by decide) (by decide)

/-- Claim C3 counterexample: on a terminal error with two structured errors the
raised message joins the two error blocks with a single newline, not a blank
line — the blank-line-separated form does not occur in the message. -/
theorem restError_message_newline_counterexample :
    httpRequest env0 denv0 opts0 req0 st0 Option.none [r400]
      = Option.some (HttpResult.failure
          { message := "HTTP 400 from GET https://example.com/a\n\nBEDEV1 errors:\ncode: \"1\"\ncode: \"2\"",
            isHttpError := true,
            errors := [[("code", ErrVal.str "1")], [("code", ErrVal.str "2")]],
            httpCode := 400,
            response := mkHTTPResponse r400 Option.none Option.none,
            ratelimit := Option.none }, st0, 1)
    ∧ jsIncludes
        "HTTP 400 from GET https://example.com/a\n\nBEDEV1 errors:\ncode: \"1\"\ncode: \"2\""
        "code: \"1\"\ncode: \"2\"" = true
    ∧ jsIncludes
        "HTTP 400 from GET https://example.com/a\n\nBEDEV1 errors:\ncode: \"1\"\ncode: \"2\""
        "code: \"1\"\n\ncode: \"2\"" = false := by
  refine ⟨by decide, by decide, by decide⟩

/-- Claim C3 (amended): when error-handling mode is not "none", the response is
not ok and no retry applies, `httpRequest` raises a single REST error whose
errors come from the mode-selected parser (BEDEV1 by default, or BEDEV2),
with the HTTP code, the typed response, the rate-limit snapshot, and a
message rendering each structured error as concatenated key: "value" pairs,
the per-error blocks separated by single newlines (not blank lines); no
further retry follows (exactly one dispatch is consumed). -/
theorem httpRequest_terminal_error_contents (env : OrchestratorEnv) (denv : DecodeEnv α)
    (req : HTTPReq) (isR : Bool) (hdr : HeadersL) (retries : Option Int) (st : CsrfTokens)
    (r : TResp) (rest : List TResp)
    (hmode : req.errorHandling ≠ Option.some "none")
    (hok : r.ok = false)
    (hcsrf : ¬(isR = true ∧ r.code = 403 ∧ hhas r.headers CSRF_TOKEN_HEADER_NAME = true))
    (hch : req.handleChallenge = Option.none)
    (hretry : retryGuard retries r.code = false) :
    (httpRequestLoop env denv req isR hdr retries st (r :: rest)
      = Option.some (HttpResult.failure
          { message := "HTTP " ++ toString r.code ++ " from " ++ ((req.method).getD "GET") ++
              " " ++ r.url ++
              (if renderErrors (selErrors env req r) ≠ "" then
                "\n\n" ++ ((req.errorHandling).getD "BEDEV1") ++ " errors:\n" ++
                  renderErrors (selErrors env req r)
              else ""),
            isHttpError := true,
            errors := selErrors env req r,
            httpCode := r.code,
            response := mkHTTPResponse r Option.none Option.none,
            ratelimit := parseRatelimitHeaders r.headers }, st, 1))
    ∧ (∀ (k v : String), renderError [(k, ErrVal.str v)] = ((k ++ ": \"") ++ v) ++ "\"")
    ∧ (∀ e1 e2 : ErrorRecord, renderError e1 ≠ "" →
        renderErrors [e1, e2] = (renderError e1 ++ "\n") ++ renderError e2) := by
  refine ⟨?_, ?_, ?_⟩
  · simp only [httpRequestLoop]
    rw [if_neg hcsrf]
    simp only [hch, ite_self]
    rw [if_pos ⟨hmode, hok⟩]
    rw [if_neg (by simp [hretry])]
    rfl
  · intro k v
    simp [renderError, errValString]
  · intro e1 e2 h
    simp [renderErrors, h]

/-- Witness for the amended C3 at a concrete terminal 400 response. -/
theorem httpRequest_terminal_error_contents_witness :
    httpRequestLoop env0 denv0 req0 false [] Option.none st0 [r400]
      = Option.some (HttpResult.failure
          { message := "HTTP " ++ toString r400.code ++ " from " ++
              ((req0.method).getD "GET") ++ " " ++ r400.url ++
              (if renderErrors (selErrors env0 req0 r400) ≠ "" then
                "\n\n" ++ ((req0.errorHandling).getD "BEDEV1") ++ " errors:\n" ++
                  renderErrors (selErrors env0 req0 r400)
              else ""),
            isHttpError := true,
            errors := selErrors env0 req0 r400,
            httpCode := r400.code,
            response := mkHTTPResponse r400 Option.none Option.none,
            ratelimit := parseRatelimitHeaders r400.headers }, st0, 1) :=
  (httpRequest_terminal_error_contents env0 denv0 req0 false [] Option.none st0 r400 []
    (by decide) (by decide) (by decide) rfl (by decide)).1
